import Mathlib

/-!
# Verification of `scripts/download-pdfjs.js`

A shallow embedding of the asset-download script.  The script is effectful
Node.js code; its effects are made explicit as a `World` value that is threaded
through every operation:

* the filesystem (regular files with their content, and directories),
* the log of the `fs` / `https` calls the script performs, in program order,
* the lines written with `console.log` and `console.error`,
* the argument of `process.exit` when it is called, and the error of an
  uncaught exception when one terminates the process.

What the outside world does during one `downloadFile` call (what the server
answers, whether the write stream or the connection fails and when) is an
`Outcome` supplied to the call; a run of the loop receives one outcome per
call, `env k` for the `k`-th call.  The outcomes are those of a call that ends:
a connection that stays open and silent for ever keeps the process alive, and
such a run has no final world.

Filesystem paths are lists of path segments (`/a/b/c` is `["a", "b", "c"]`).

The library calls are modelled by their documented effect: `fs.mkdirSync` with
`recursive: true` and `fs.unlink` are taken to succeed, one `console.log` or
`console.error` call is one line, and an `error` event emitted on a stream
that has no `error` listener is thrown and ends the process (exit status 1).
A promise that is never settled does not keep the process alive: line 78 does
not await `downloadPDFJS()`, so once nothing is left to do the process exits
with status 0.
-/

namespace DownloadPdfjs

/-! ## Paths (`path` module) -/

/-- A filesystem path, as the list of its segments. -/
abbrev Path := List String

/-- One argument of `path.join` applied to an already normalised path: `..`
removes the last segment, `.` and the empty string are dropped, anything else
is appended. -/
def joinStep (acc : Path) (seg : String) : Path :=
  if seg = ".." then acc.dropLast
  else if seg = "." ∨ seg = "" then acc
  else acc ++ [seg]

/-- `path.join(base, ...segs)` for a normalised `base`. -/
def pathJoin (base : Path) (segs : List String) : Path :=
  segs.foldl joinStep base

/-- `path.basename(p)`: the last segment. -/
def basename (p : Path) : String :=
  p.getLast?.getD ""

/-! ## Constants (lines 11-13) -/

/-- `PDFJS_VERSION` (line 11). -/
def PDFJS_VERSION : String := "3.11.174"

/-- `BASE_URL` (line 12). -/
def BASE_URL : String := "https://cdnjs.cloudflare.com/ajax/libs/pdf.js"

/-- `OUTPUT_DIR` (line 13): `path.join(__dirname, "..", "public", "libs")`.
The directory of the script, `__dirname`, is only known at run time and is a
parameter. -/
def OUTPUT_DIR (dirname : Path) : Path :=
  pathJoin dirname ["..", "public", "libs"]

/-! ## The world -/

/-- The filesystem: the content of every regular file and the set of
directories. -/
structure FileSystem where
  files : Path → Option String
  dirs : Path → Bool

/-- The calls to `fs` and `https` (and the stream methods) that the script
performs. -/
inductive Call where
  | mkdirSync (p : Path)
  | createWriteStream (p : Path)
  | httpsGet (url : String)
  | pipe (p : Path)
  | close (p : Path)
  | unlink (p : Path)
  deriving DecidableEq, Repr

/-- The observable state of a run. -/
structure World where
  fs : FileSystem
  calls : List Call
  stdout : List String
  stderr : List String
  exitCode : Option Nat
  uncaught : Option String

/-- The exit status of the process: the argument of `process.exit` when it was
called; otherwise 1 when an uncaught exception terminated the process (the
status Node.js uses for it) and 0 when the process ends because nothing is
left to do. -/
def World.exitStatus (w : World) : Nat :=
  match w.exitCode with
  | some c => c
  | none => if w.uncaught.isSome then 1 else 0

/-- `console.log(line)`. -/
def consoleLog (line : String) (w : World) : World :=
  { w with stdout := w.stdout ++ [line] }

/-- `console.error(line)`. -/
def consoleError (line : String) (w : World) : World :=
  { w with stderr := w.stderr ++ [line] }

/-- `process.exit(code)`. -/
def processExit (code : Nat) (w : World) : World :=
  { w with exitCode := some code }

/-- An exception nobody catches terminates the process. -/
def uncaughtException (err : String) (w : World) : World :=
  { w with uncaught := some err }

/-- Replace the content of the file at `p`. -/
def FileSystem.write (fs : FileSystem) (p : Path) (content : String) : FileSystem :=
  { fs with files := fun q => if q = p then some content else fs.files q }

/-- Remove the file at `p`. -/
def FileSystem.remove (fs : FileSystem) (p : Path) : FileSystem :=
  { fs with files := fun q => if q = p then none else fs.files q }

/-- `fs.existsSync(p)`: something, a file or a directory, is at `p`. -/
def existsSync (fs : FileSystem) (p : Path) : Bool :=
  (fs.files p).isSome || fs.dirs p

/-- `fs.mkdirSync(p, { recursive: true })` when it returns normally: `p` and
every ancestor of `p` are directories afterwards.  Nothing else changes. -/
def mkdirSync (p : Path) (w : World) : World :=
  { w with
    fs := { w.fs with dirs := fun q => w.fs.dirs q || q.isPrefixOf p }
    calls := w.calls ++ [Call.mkdirSync p] }

/-- `fs.createWriteStream(p)` whose open succeeds: the file is created, or
truncated when it is already there (flag `w`). -/
def createWriteStream (p : Path) (w : World) : World :=
  { w with fs := w.fs.write p "", calls := w.calls ++ [Call.createWriteStream p] }

/-- `fs.createWriteStream(p)` whose open fails: the call is made, the
filesystem is as before. -/
def createWriteStreamFailing (p : Path) (w : World) : World :=
  { w with calls := w.calls ++ [Call.createWriteStream p] }

/-- `https.get(url, ...)`: the request is issued. -/
def httpsGet (url : String) (w : World) : World :=
  { w with calls := w.calls ++ [Call.httpsGet url] }

/-- `response.pipe(file)` that writes `written` to the file at `p`. -/
def pipe (p : Path) (written : String) (w : World) : World :=
  { w with fs := w.fs.write p written, calls := w.calls ++ [Call.pipe p] }

/-- `file.close()`. -/
def close (p : Path) (w : World) : World :=
  { w with calls := w.calls ++ [Call.close p] }

/-- `fs.unlink(p, () => {})`: the file is removed. -/
def unlink (p : Path) (w : World) : World :=
  { w with fs := w.fs.remove p, calls := w.calls ++ [Call.unlink p] }

/-! ## The step at lines 15-18 -/

/-- Lines 15-18: `if (!fs.existsSync(OUTPUT_DIR)) fs.mkdirSync(OUTPUT_DIR, { recursive: true })`. -/
def ensureOutputDirectory (dir : Path) (w : World) : World :=
  if !existsSync w.fs dir then mkdirSync dir w else w

/-! ## `downloadFile` (lines 20-50) -/

/-- What happens while the body of a 200 response is piped into the write
stream. -/
inductive WriteOutcome where
  /-- The whole body is written and the stream emits `finish`. -/
  | finish
  /-- The stream emits `error` after `written` reached the file. -/
  | error (written : String) (err : String)
  /-- The request emits `error` (the connection is reset) after `written`
  reached the file: the listener of lines 46-48 is still registered. -/
  | requestError (written : String) (err : String)
  /-- The response is cut short after `written` reached the file and no
  `error` is emitted on the request or on the write stream: `pipe` does not end
  the write stream, so `finish` never comes. -/
  | cutShort (written : String)
  deriving DecidableEq, Repr

/-- What the outside world does during one call of `downloadFile`. -/
inductive Outcome where
  /-- The write stream emits `error` before the response arrives: the open of
  the destination fails (no permission, missing directory, ...). -/
  | openError (err : String)
  /-- The request emits `error` before any response: DNS failure, connection
  refused, ... -/
  | requestError (err : String)
  /-- The server answers with a status code and a body. -/
  | response (statusCode : Nat) (body : String) (write : WriteOutcome)
  deriving DecidableEq, Repr

/-- How the promise returned by `downloadFile` ends. -/
inductive Settled where
  | resolved
  | rejected (message : String)
  /-- The promise is never settled: an `error` event with no listener is
  thrown by the emitter, and nothing catches it. -/
  | unhandled (err : String)
  /-- The promise is never settled and nothing is thrown: none of `resolve`
  and `reject` is ever called. -/
  | pending
  deriving DecidableEq, Repr

/-- `downloadFile(url, outputPath)`, lines 20-50.

* line 22 creates the write stream, then line 24 issues the request;
* the `error` listener of the stream is registered at line 41, inside the
  response callback and after the status check: an `error` the stream emits
  earlier has no listener;
* line 26: a status other than 200 rejects and returns, before `pipe`;
* lines 33-39: the body is piped, and on `finish` the stream is closed, the
  progress line printed and the promise resolved;
* lines 41-44: on a stream `error` the file is unlinked and the promise
  rejected with the error;
* lines 46-48: an `error` of the request rejects with the error, before the
  response as well as while the body is piped; nothing is unlinked, so what
  was written stays in the file;
* no listener is put on `response`: when the response is cut short without an
  `error` of the request, neither `finish` nor `error` comes and the promise
  stays pending. -/
def downloadFile (o : Outcome) (url : String) (outputPath : Path) (w : World) :
    Settled × World :=
  match o with
  | .openError err =>
    (.unhandled err, httpsGet url (createWriteStreamFailing outputPath w))
  | .requestError err =>
    (.rejected err, httpsGet url (createWriteStream outputPath w))
  | .response statusCode body write =>
    let w1 := httpsGet url (createWriteStream outputPath w)
    if statusCode ≠ 200 then
      (.rejected ("Failed to download " ++ url ++ ": " ++ toString statusCode), w1)
    else
      match write with
      | .finish =>
        (.resolved,
          consoleLog ("Downloaded: " ++ basename outputPath)
            (close outputPath (pipe outputPath body w1)))
      | .error written err =>
        (.rejected err, unlink outputPath (pipe outputPath written w1))
      | .requestError written err =>
        (.rejected err, pipe outputPath written w1)
      | .cutShort written =>
        (.pending, pipe outputPath written w1)

/-! ## `downloadPDFJS` (lines 52-76) -/

/-- An element of `files`: `{ url, path }`. -/
structure DownloadTask where
  url : String
  path : Path
  deriving DecidableEq, Repr

/-- The `files` array of lines 56-65. -/
def files (dirname : Path) : List DownloadTask :=
  [ { url := BASE_URL ++ "/" ++ PDFJS_VERSION ++ "/pdf.min.js",
      path := pathJoin (OUTPUT_DIR dirname) ["pdf.min.js"] },
    { url := BASE_URL ++ "/" ++ PDFJS_VERSION ++ "/pdf.worker.min.js",
      path := pathJoin (OUTPUT_DIR dirname) ["pdf.worker.min.js"] } ]

/-- The loop of lines 67-69, `for (const file of files) await downloadFile(...)`.
The `k`-th call of `downloadFile` meets the outcome `env k`; the first call of
this loop is call number `k`.  An `await` of a promise that does not resolve
leaves the loop. -/
def downloadLoop (env : Nat → Outcome) : Nat → List DownloadTask → World → Settled × World
  | _, [], w => (.resolved, w)
  | k, file :: rest, w =>
    match downloadFile (env k) file.url file.path w with
    | (.resolved, w1) => downloadLoop env (k + 1) rest w1
    | (.rejected message, w1) => (.rejected message, w1)
    | (.unhandled err, w1) => (.unhandled err, w1)
    | (.pending, w1) => (.pending, w1)

/-- The body of `downloadPDFJS` (lines 53-75) over an arbitrary `files` list:
the header line, the loop, then the success line; the `catch` block prints the
message of a rejection and calls `process.exit(1)`.  An unhandled stream error
is not an exception of the `try` block: it terminates the process.  When the
awaited promise stays pending the function never resumes: nothing more is
printed and `process.exit` is not called. -/
def downloadAll (env : Nat → Outcome) (tasks : List DownloadTask) (w : World) : World :=
  let w0 := consoleLog ("Downloading PDF.js v" ++ PDFJS_VERSION ++ "...") w
  match downloadLoop env 0 tasks w0 with
  | (.resolved, w1) => consoleLog "PDF.js files downloaded successfully!" w1
  | (.rejected message, w1) =>
    processExit 1 (consoleError ("Error downloading PDF.js: " ++ message) w1)
  | (.unhandled err, w1) => uncaughtException err w1
  | (.pending, w1) => w1

/-- `downloadPDFJS()`, lines 52-76. -/
def downloadPDFJS (dirname : Path) (env : Nat → Outcome) (w : World) : World :=
  downloadAll env (files dirname) w

/-- The whole script: lines 15-18, then the call of line 78. -/
def main (dirname : Path) (env : Nat → Outcome) (w : World) : World :=
  downloadPDFJS dirname env (ensureOutputDirectory (OUTPUT_DIR dirname) w)

/-! ## Vocabulary of the statements -/

/-- The outcome of a call that downloads `body` without any error. -/
def Outcome.ok (body : String) : Outcome := .response 200 body .finish

/-- A world in which nothing has happened yet, over the filesystem `fs`. -/
def World.init (fs : FileSystem) : World :=
  { fs := fs, calls := [], stdout := [], stderr := [], exitCode := none, uncaught := none }

/-- The filesystem with no file and no directory. -/
def FileSystem.empty : FileSystem :=
  { files := fun _ => none, dirs := fun _ => false }

/-- The URLs requested with `https.get`, in order. -/
def requests (w : World) : List String :=
  w.calls.filterMap fun c => match c with
    | .httpsGet url => some url
    | _ => none

/-- The paths on which `fs.createWriteStream` was called, in order. -/
def opened (w : World) : List Path :=
  w.calls.filterMap fun c => match c with
    | .createWriteStream p => some p
    | _ => none

/-- The last segment of a URL: what follows its last `/`. -/
def urlLastSegment (url : String) : String :=
  String.mk (url.data.reverse.takeWhile (fun c => c != '/')).reverse

/-- The call fails before any of the body is piped: with an error of the
request before the response, or with a status other than 200. -/
def Outcome.failsBeforePipe : Outcome → Bool
  | .requestError _ => true
  | .response statusCode _ _ => statusCode != 200
  | .openError _ => false

/-- The call fails with an error of the request while the body of a 200
response is piped. -/
def Outcome.isRequestErrorWhilePiping : Outcome → Bool
  | .response statusCode _ (.requestError _ _) => statusCode == 200
  | _ => false

/-- The call fails with a status other than 200 or with an error of the
request, whenever that error comes. -/
def Outcome.isStatusOrRequestFailure (o : Outcome) : Bool :=
  o.failsBeforePipe || o.isRequestErrorWhilePiping

/-- The call reaches the `error` listener of the write stream (line 41): the
status is 200 and the stream fails while the body is piped. -/
def Outcome.isHandledWriteError : Outcome → Bool
  | .response statusCode _ (.error _ _) => statusCode == 200
  | _ => false

/-- The promise of the call is rejected: by the status check, by the `error`
listener of the request or by the `error` listener of the write stream. -/
def Outcome.isRejected (o : Outcome) : Bool :=
  o.isStatusOrRequestFailure || o.isHandledWriteError

/-- The body the server sends. -/
def Outcome.body : Outcome → String
  | .response _ body _ => body
  | _ => ""

/-- The progress line of a task. -/
def progressLine (t : DownloadTask) : String :=
  "Downloaded: " ++ basename t.path

/-- The calls of a download without error. -/
def okCalls (t : DownloadTask) : List Call :=
  [Call.createWriteStream t.path, Call.httpsGet t.url, Call.pipe t.path, Call.close t.path]

/-- The first line `downloadPDFJS` prints (line 54). -/
def headerLine : String := "Downloading PDF.js v" ++ PDFJS_VERSION ++ "..."

/-- The last line a successful `downloadPDFJS` prints (line 71). -/
def successLine : String := "PDF.js files downloaded successfully!"

/-- The first task of the two-task scenario. -/
def taskA : DownloadTask := { url := "https://example.com/a.js", path := ["out", "a.js"] }

/-- The second task of the two-task scenario. -/
def taskB : DownloadTask := { url := "https://example.com/b.js", path := ["out", "b.js"] }

/-- Both endpoints answer 200, with the bodies `AAA` and `BBB`. -/
def envBothOk : Nat → Outcome
  | 0 => .ok "AAA"
  | _ => .ok "BBB"

/-- The first endpoint answers 200 with the body `AAA`, the second answers
404. -/
def envSecond404 : Nat → Outcome
  | 0 => .ok "AAA"
  | _ => .response 404 "Not Found" .finish

/-- The first response has status 200 and is cut short after `A`, with no
error. -/
def envCutShort : Nat → Outcome
  | _ => .response 200 "AAA" (.cutShort "A")

/-- The open of the destination fails. -/
def envOpenError : Nat → Outcome
  | _ => .openError "EACCES: permission denied, open out/a.js"

/-! ## `downloadFile`: one call -/

theorem downloadFile_ok (body url : String) (p : Path) (w : World) :
    downloadFile (.ok body) url p w =
      (.resolved, consoleLog ("Downloaded: " ++ basename p)
        (close p (pipe p body (httpsGet url (createWriteStream p w))))) := by
  simp [downloadFile, Outcome.ok]

theorem downloadFile_not_ok (o : Outcome) (url : String) (p : Path) (w : World)
    (h : ∀ body, o ≠ .ok body) : (downloadFile o url p w).1 ≠ .resolved := by
  cases o with
  | openError err => simp [downloadFile]
  | requestError err => simp [downloadFile]
  | response s body wo =>
    by_cases hs : s = 200
    · subst hs
      cases wo with
      | finish => exact absurd rfl (h body)
      | error written err => simp [downloadFile]
      | requestError written err => simp [downloadFile]
      | cutShort written => simp [downloadFile]
    · simp [downloadFile, hs]

/-- The promise of a call is rejected exactly for the outcomes `isRejected`
names. -/
theorem downloadFile_rejected_iff (o : Outcome) (url : String) (p : Path) (w : World) :
    (∃ message, (downloadFile o url p w).1 = .rejected message) ↔ o.isRejected = true := by
  cases o with
  | openError err =>
    simp [downloadFile, Outcome.isRejected, Outcome.isStatusOrRequestFailure,
      Outcome.failsBeforePipe, Outcome.isRequestErrorWhilePiping, Outcome.isHandledWriteError]
  | requestError err =>
    simp [downloadFile, Outcome.isRejected, Outcome.isStatusOrRequestFailure,
      Outcome.failsBeforePipe]
  | response s body wo =>
    by_cases hs : s = 200
    · subst hs
      cases wo <;>
        simp [downloadFile, Outcome.isRejected, Outcome.isStatusOrRequestFailure,
          Outcome.failsBeforePipe, Outcome.isRequestErrorWhilePiping,
          Outcome.isHandledWriteError]
    · simp [downloadFile, hs, Outcome.isRejected, Outcome.isStatusOrRequestFailure,
        Outcome.failsBeforePipe]

/-- C3: a response whose status code `s` is not exactly 200 is never a
success: `downloadFile` rejects with the message
`Failed to download <url>: <s>`, and `pipe` is not called: the only calls are
`createWriteStream` and `https.get`, and the destination holds the empty file
that `createWriteStream` made, not the body. -/
theorem downloadFile_status_not_200 (s : Nat) (body url : String) (wo : WriteOutcome)
    (p : Path) (w : World) (h : s ≠ 200) :
    (downloadFile (.response s body wo) url p w).1
        = .rejected ("Failed to download " ++ url ++ ": " ++ toString s)
      ∧ (downloadFile (.response s body wo) url p w).1 ≠ .resolved
      ∧ (downloadFile (.response s body wo) url p w).2.calls
        = w.calls ++ [Call.createWriteStream p, Call.httpsGet url]
      ∧ Call.pipe p ∉ [Call.createWriteStream p, Call.httpsGet url]
      ∧ (downloadFile (.response s body wo) url p w).2.fs.files p = some ""
      ∧ (downloadFile (.response s body wo) url p w).2.stdout = w.stdout := by
  simp [downloadFile, h, httpsGet, createWriteStream, FileSystem.write]

theorem downloadFile_status_not_200_witness :
    (downloadFile (.response 302 "moved" .finish) "https://example.com/a.js" ["out", "a.js"]
        (World.init FileSystem.empty)).1
        = .rejected "Failed to download https://example.com/a.js: 302"
      ∧ (downloadFile (.response 204 "" .finish) "https://example.com/a.js" ["out", "a.js"]
        (World.init FileSystem.empty)).2.fs.files ["out", "a.js"] = some "" :=
  ⟨(downloadFile_status_not_200 302 "moved" "https://example.com/a.js" .finish ["out", "a.js"]
      (World.init FileSystem.empty) (by decide)).1,
   (downloadFile_status_not_200 204 "" "https://example.com/a.js" .finish ["out", "a.js"]
      (World.init FileSystem.empty) (by decide)).2.2.2.2.1⟩

/-- C6: unless the call ends in the `error` listener of the write stream,
`downloadFile` performs no `unlink`; and when it fails because of a status
other than 200 or because of an error of the request (before the response or
while the body is piped), the promise is rejected and the file that
`createWriteStream` created is at the destination path when the failure
propagates: empty, with `createWriteStream` and `https.get` the only calls,
when the failure comes before the body is piped, and holding what was written
when the error of the request comes while the body is piped. -/
theorem downloadFile_unlink_only_on_write_error (o : Outcome) (url : String) (p : Path)
    (w : World) (h : o.isHandledWriteError = false) :
    (∃ added, (downloadFile o url p w).2.calls = w.calls ++ added
        ∧ ∀ q, Call.unlink q ∉ added)
      ∧ (o.isStatusOrRequestFailure = true →
          (∃ message, (downloadFile o url p w).1 = .rejected message)
          ∧ ((downloadFile o url p w).2.fs.files p).isSome = true
          ∧ (o.failsBeforePipe = true →
              (downloadFile o url p w).2.calls
                  = w.calls ++ [Call.createWriteStream p, Call.httpsGet url]
              ∧ (downloadFile o url p w).2.fs.files p = some "")
          ∧ (∀ body written err, o = .response 200 body (.requestError written err) →
              (downloadFile o url p w).2.calls
                  = w.calls ++ [Call.createWriteStream p, Call.httpsGet url, Call.pipe p]
              ∧ (downloadFile o url p w).2.fs.files p = some written)) := by
  cases o with
  | openError err =>
    refine ⟨⟨[Call.createWriteStream p, Call.httpsGet url], ?_, ?_⟩, ?_⟩
    · simp [downloadFile, httpsGet, createWriteStreamFailing]
    · simp
    · simp [Outcome.isStatusOrRequestFailure, Outcome.failsBeforePipe,
        Outcome.isRequestErrorWhilePiping]
  | requestError err =>
    refine ⟨⟨[Call.createWriteStream p, Call.httpsGet url], ?_, ?_⟩, ?_⟩
    · simp [downloadFile, httpsGet, createWriteStream]
    · simp
    · simp [downloadFile, httpsGet, createWriteStream, FileSystem.write]
  | response s body wo =>
    by_cases hs : s = 200
    · subst hs
      cases wo with
      | finish =>
        refine ⟨⟨[Call.createWriteStream p, Call.httpsGet url, Call.pipe p, Call.close p],
          ?_, ?_⟩, ?_⟩
        · simp [downloadFile, httpsGet, createWriteStream, pipe, close, consoleLog]
        · simp
        · simp [Outcome.isStatusOrRequestFailure, Outcome.failsBeforePipe,
            Outcome.isRequestErrorWhilePiping]
      | error written err => simp [Outcome.isHandledWriteError] at h
      | requestError written err =>
        refine ⟨⟨[Call.createWriteStream p, Call.httpsGet url, Call.pipe p], ?_, ?_⟩, ?_⟩
        · simp [downloadFile, httpsGet, createWriteStream, pipe]
        · simp
        · intro _
          refine ⟨⟨err, by simp [downloadFile]⟩, ?_, ?_, ?_⟩
          · simp [downloadFile, httpsGet, createWriteStream, pipe, FileSystem.write]
          · simp [Outcome.failsBeforePipe]
          · intro body' written' err' he
            injection he with _ _ hw
            injection hw with hw1 _
            subst hw1
            simp [downloadFile, httpsGet, createWriteStream, pipe, FileSystem.write]
      | cutShort written =>
        refine ⟨⟨[Call.createWriteStream p, Call.httpsGet url, Call.pipe p], ?_, ?_⟩, ?_⟩
        · simp [downloadFile, httpsGet, createWriteStream, pipe]
        · simp
        · simp [Outcome.isStatusOrRequestFailure, Outcome.failsBeforePipe,
            Outcome.isRequestErrorWhilePiping]
    · refine ⟨⟨[Call.createWriteStream p, Call.httpsGet url], ?_, ?_⟩, ?_⟩
      · simp [downloadFile, hs, httpsGet, createWriteStream]
      · simp
      · intro _
        refine ⟨⟨_, by simp [downloadFile, hs]; rfl⟩, ?_, ?_, ?_⟩
        · simp [downloadFile, hs, httpsGet, createWriteStream, FileSystem.write]
        · intro _
          simp [downloadFile, hs, httpsGet, createWriteStream, FileSystem.write]
        · intro body' written' err' he
          injection he with hs' _ _
          exact absurd hs' hs

theorem downloadFile_unlink_only_on_write_error_witness :
    ((downloadFile (.requestError "ECONNREFUSED") "https://example.com/a.js" ["out", "a.js"]
        (World.init FileSystem.empty)).2.fs.files ["out", "a.js"]).isSome = true
      ∧ (downloadFile (.response 200 "AAA" (.requestError "A" "ECONNRESET"))
          "https://example.com/a.js" ["out", "a.js"]
          (World.init FileSystem.empty)).2.fs.files ["out", "a.js"] = some "A" :=
  ⟨((downloadFile_unlink_only_on_write_error (.requestError "ECONNREFUSED")
      "https://example.com/a.js" ["out", "a.js"] (World.init FileSystem.empty) rfl).2 rfl).2.1,
   (((downloadFile_unlink_only_on_write_error
      (.response 200 "AAA" (.requestError "A" "ECONNRESET"))
      "https://example.com/a.js" ["out", "a.js"] (World.init FileSystem.empty) rfl).2
        rfl).2.2.2 "AAA" "A" "ECONNRESET" rfl).2⟩

/-- C10, as the code has it: `createWriteStream` (which truncates) is called
before `https.get`, so when the destination already holds non-empty content
and the call fails with a status other than 200 or with an error of the
request, the promise is rejected and the previous content is gone: the
destination holds the empty file when the failure comes before the body is
piped, and what was written of the new body when the error of the request
comes while the body is piped. -/
theorem downloadFile_truncates_before_failure (o : Outcome) (url : String) (p : Path)
    (w : World) (old : String) (hold : w.fs.files p = some old) (hne : old ≠ "")
    (hfail : o.isStatusOrRequestFailure = true) :
    (∃ message, (downloadFile o url p w).1 = .rejected message)
      ∧ (∃ later, (downloadFile o url p w).2.calls
          = w.calls ++ Call.createWriteStream p :: Call.httpsGet url :: later)
      ∧ (o.failsBeforePipe = true →
          (downloadFile o url p w).2.fs.files p = some ""
          ∧ (downloadFile o url p w).2.fs.files p ≠ w.fs.files p)
      ∧ (∀ body written err, o = .response 200 body (.requestError written err) →
          (downloadFile o url p w).2.fs.files p = some written) := by
  cases o with
  | openError err =>
    simp [Outcome.isStatusOrRequestFailure, Outcome.failsBeforePipe,
      Outcome.isRequestErrorWhilePiping] at hfail
  | requestError err =>
    refine ⟨⟨err, rfl⟩, ⟨[], by simp [downloadFile, httpsGet, createWriteStream]⟩, ?_, ?_⟩
    · intro _
      simp [downloadFile, httpsGet, createWriteStream, FileSystem.write, hold]
      exact fun e => hne e.symm
    · intro body written err' he
      cases he
  | response s body wo =>
    by_cases hs : s = 200
    · subst hs
      cases wo with
      | finish =>
        simp [Outcome.isStatusOrRequestFailure, Outcome.failsBeforePipe,
          Outcome.isRequestErrorWhilePiping] at hfail
      | error written err =>
        simp [Outcome.isStatusOrRequestFailure, Outcome.failsBeforePipe,
          Outcome.isRequestErrorWhilePiping] at hfail
      | cutShort written =>
        simp [Outcome.isStatusOrRequestFailure, Outcome.failsBeforePipe,
          Outcome.isRequestErrorWhilePiping] at hfail
      | requestError written err =>
        refine ⟨⟨err, by simp [downloadFile]⟩,
          ⟨[Call.pipe p], by simp [downloadFile, httpsGet, createWriteStream, pipe]⟩, ?_, ?_⟩
        · simp [Outcome.failsBeforePipe]
        · intro body' written' err' he
          injection he with _ _ hw
          injection hw with hw1 _
          subst hw1
          simp [downloadFile, httpsGet, createWriteStream, pipe, FileSystem.write]
    · refine ⟨⟨_, by simp [downloadFile, hs]; rfl⟩,
        ⟨[], by simp [downloadFile, hs, httpsGet, createWriteStream]⟩, ?_, ?_⟩
      · intro _
        simp [downloadFile, hs, httpsGet, createWriteStream, FileSystem.write, hold]
        exact fun e => hne e.symm
      · intro body' written' err' he
        injection he with hs' _ _
        exact absurd hs' hs

theorem downloadFile_truncates_before_failure_witness :
    (downloadFile (.response 404 "Not Found" .finish) "https://example.com/a.js" ["out", "a.js"]
        (World.init (FileSystem.empty.write ["out", "a.js"] "old"))).2.fs.files ["out", "a.js"]
      = some "" :=
  ((downloadFile_truncates_before_failure (.response 404 "Not Found" .finish)
    "https://example.com/a.js" ["out", "a.js"]
    (World.init (FileSystem.empty.write ["out", "a.js"] "old")) "old"
    (by simp [World.init, FileSystem.write]) (by decide) rfl).2.2.1 rfl).1

/-- C10, as the claim has it, fails: the destination holds `old`, the request
emits `error` after `A` of the body was written, the promise is rejected with
that error, and the destination holds `A`, not an empty file. -/
theorem request_error_while_piping_not_empty :
    (downloadFile (.response 200 "AAA" (.requestError "A" "ECONNRESET"))
        "https://example.com/a.js" ["out", "a.js"]
        (World.init (FileSystem.empty.write ["out", "a.js"] "old"))).1
        = .rejected "ECONNRESET"
      ∧ ¬ ((downloadFile (.response 200 "AAA" (.requestError "A" "ECONNRESET"))
        "https://example.com/a.js" ["out", "a.js"]
        (World.init (FileSystem.empty.write ["out", "a.js"] "old"))).2.fs.files ["out", "a.js"]
        = some "") := by
  decide

/-! ## The loop and the run -/

theorem downloadLoop_cons_ok (env : Nat → Outcome) (k : Nat) (t : DownloadTask)
    (rest : List DownloadTask) (w : World) (body : String) (h : env k = .ok body) :
    downloadLoop env k (t :: rest) w
      = downloadLoop env (k + 1) rest (downloadFile (.ok body) t.url t.path w).2 := by
  rw [downloadLoop, h, downloadFile_ok]

theorem downloadLoop_cons_not_ok (env : Nat → Outcome) (k : Nat) (t : DownloadTask)
    (rest : List DownloadTask) (w : World) (h : ∀ body, env k ≠ .ok body) :
    downloadLoop env k (t :: rest) w = downloadFile (env k) t.url t.path w := by
  have hne := downloadFile_not_ok (env k) t.url t.path w h
  rw [downloadLoop]
  rcases hr : downloadFile (env k) t.url t.path w with ⟨r, w1⟩
  rw [hr] at hne
  cases r with
  | resolved => exact absurd rfl hne
  | rejected message => rfl
  | unhandled err => rfl
  | pending => rfl

/-- A run of the loop in which every call succeeds. -/
theorem downloadLoop_all_ok (env : Nat → Outcome) (tasks : List DownloadTask) :
    ∀ (k : Nat) (w : World), (∀ j, j < tasks.length → ∃ body, env (k + j) = .ok body) →
      (downloadLoop env k tasks w).1 = .resolved
      ∧ (downloadLoop env k tasks w).2.stdout = w.stdout ++ tasks.map progressLine
      ∧ (downloadLoop env k tasks w).2.stderr = w.stderr
      ∧ (downloadLoop env k tasks w).2.exitCode = w.exitCode
      ∧ (downloadLoop env k tasks w).2.uncaught = w.uncaught
      ∧ (downloadLoop env k tasks w).2.calls = w.calls ++ (tasks.map okCalls).flatten
      ∧ (downloadLoop env k tasks w).2.fs.dirs = w.fs.dirs
      ∧ (∀ q, q ∉ tasks.map DownloadTask.path →
          (downloadLoop env k tasks w).2.fs.files q = w.fs.files q)
      ∧ ((tasks.map DownloadTask.path).Nodup → ∀ j (hj : j < tasks.length),
          (downloadLoop env k tasks w).2.fs.files (tasks.get ⟨j, hj⟩).path
            = some (env (k + j)).body) := by
  induction tasks with
  | nil =>
    intro k w _
    simp [downloadLoop]
  | cons t rest ih =>
    intro k w h
    obtain ⟨body, hb⟩ := h 0 (by simp)
    rw [Nat.add_zero] at hb
    have hrest : ∀ j, j < rest.length → ∃ body, env (k + 1 + j) = .ok body := by
      intro j hj
      have := h (j + 1) (by simpa using hj)
      rwa [show k + (j + 1) = k + 1 + j by omega] at this
    obtain ⟨h1, h2, h3, h4, h5, h6, h7, h8, h9⟩ :=
      ih (k + 1) (downloadFile (.ok body) t.url t.path w).2 hrest
    rw [downloadLoop_cons_ok env k t rest w body hb]
    refine ⟨h1, ?_, ?_, ?_, ?_, ?_, ?_, ?_, ?_⟩
    · rw [h2]; simp [downloadFile_ok, consoleLog, close, pipe, httpsGet, createWriteStream,
        progressLine]
    · rw [h3]; simp [downloadFile_ok, consoleLog, close, pipe, httpsGet, createWriteStream]
    · rw [h4]; simp [downloadFile_ok, consoleLog, close, pipe, httpsGet, createWriteStream]
    · rw [h5]; simp [downloadFile_ok, consoleLog, close, pipe, httpsGet, createWriteStream]
    · rw [h6]; simp [downloadFile_ok, consoleLog, close, pipe, httpsGet, createWriteStream,
        okCalls]
    · rw [h7]; simp [downloadFile_ok, consoleLog, close, pipe, httpsGet, createWriteStream,
        FileSystem.write]
    · intro q hq
      have hq1 : q ≠ t.path := by
        intro e; exact hq (by simp [e])
      have hq2 : q ∉ rest.map DownloadTask.path := by
        intro e; exact hq (by simp at e ⊢; exact Or.inr e)
      rw [h8 q hq2]
      simp [downloadFile_ok, consoleLog, close, pipe, httpsGet, createWriteStream,
        FileSystem.write, hq1]
    · intro hnd j hj
      have hnd' : t.path ∉ rest.map DownloadTask.path ∧ (rest.map DownloadTask.path).Nodup := by
        simpa using hnd
      cases j with
      | zero =>
        have : (List.get (t :: rest) ⟨0, hj⟩).path = t.path := rfl
        rw [this, h8 t.path hnd'.1, Nat.add_zero, hb, downloadFile_ok]
        simp [consoleLog, close, pipe, httpsGet, createWriteStream,
          FileSystem.write, Outcome.ok, Outcome.body]
      | succ j =>
        have hj' : j < rest.length := by simpa using hj
        have := h9 hnd'.2 j hj'
        rw [show k + (j + 1) = k + 1 + j by omega]
        exact this

/-- A run of the loop in which the call for task `i` is the first that does
not succeed: the loop ends with that call, made in the world that the
downloads of the tasks before `i` leave. -/
theorem downloadLoop_first_failure (env : Nat → Outcome) (tasks : List DownloadTask) :
    ∀ (k : Nat) (w : World) (i : Nat) (hi : i < tasks.length),
      (∀ j, j < i → ∃ body, env (k + j) = .ok body) → (∀ body, env (k + i) ≠ .ok body) →
      downloadLoop env k tasks w
        = downloadFile (env (k + i)) (tasks.get ⟨i, hi⟩).url (tasks.get ⟨i, hi⟩).path
            (downloadLoop env k (tasks.take i) w).2 := by
  induction tasks with
  | nil => intro k w i hi; simp at hi
  | cons t rest ih =>
    intro k w i hi hpre hfail
    cases i with
    | zero =>
      rw [Nat.add_zero] at hfail
      rw [downloadLoop_cons_not_ok env k t rest w hfail]
      simp [downloadLoop]
    | succ i =>
      obtain ⟨body, hb⟩ := hpre 0 (by omega)
      rw [Nat.add_zero] at hb
      have hi' : i < rest.length := by simpa using hi
      have hpre' : ∀ j, j < i → ∃ body, env (k + 1 + j) = .ok body := by
        intro j hj
        have := hpre (j + 1) (by omega)
        rwa [show k + (j + 1) = k + 1 + j by omega] at this
      have hfail' : ∀ body, env (k + 1 + i) ≠ .ok body := by
        rw [show k + 1 + i = k + (i + 1) by omega]; exact hfail
      have := ih (k + 1) (downloadFile (.ok body) t.url t.path w).2 i hi' hpre' hfail'
      rw [downloadLoop_cons_ok env k t rest w body hb, this, List.take_succ_cons,
        downloadLoop_cons_ok env k t (rest.take i) w body hb]
      simp only [show k + (i + 1) = k + 1 + i by omega]
      rfl

theorem requests_okCalls (tasks : List DownloadTask) :
    List.filterMap (fun c => match c with
      | Call.httpsGet url => some url
      | _ => none) (tasks.map okCalls).flatten = tasks.map DownloadTask.url := by
  induction tasks with
  | nil => rfl
  | cons t rest ih => simp [okCalls, List.filterMap_cons, ih]

theorem opened_okCalls (tasks : List DownloadTask) :
    List.filterMap (fun c => match c with
      | Call.createWriteStream p => some p
      | _ => none) (tasks.map okCalls).flatten = tasks.map DownloadTask.path := by
  induction tasks with
  | nil => rfl
  | cons t rest ih => simp [okCalls, List.filterMap_cons, ih]

/-- What a call of `downloadFile` leaves as it was, and what it adds to the
requests and to the opened streams, whatever the outcome. -/
theorem downloadFile_frame (o : Outcome) (url : String) (p : Path) (w : World) :
    requests (downloadFile o url p w).2 = requests w ++ [url]
      ∧ opened (downloadFile o url p w).2 = opened w ++ [p]
      ∧ (∀ q, q ≠ p → (downloadFile o url p w).2.fs.files q = w.fs.files q)
      ∧ (downloadFile o url p w).2.fs.dirs = w.fs.dirs
      ∧ (downloadFile o url p w).2.stderr = w.stderr
      ∧ (downloadFile o url p w).2.exitCode = w.exitCode
      ∧ (downloadFile o url p w).2.uncaught = w.uncaught
      ∧ ((∀ body, o ≠ .ok body) → (downloadFile o url p w).2.stdout = w.stdout) := by
  cases o with
  | openError err =>
    simp [downloadFile, httpsGet, createWriteStreamFailing, requests, opened]
  | requestError err =>
    simp +contextual [downloadFile, httpsGet, createWriteStream, requests, opened,
      FileSystem.write]
  | response s body wo =>
    by_cases hs : s = 200
    · subst hs
      cases wo with
      | finish =>
        simp +contextual [downloadFile, httpsGet, createWriteStream, requests, opened,
          FileSystem.write, pipe, close, consoleLog, Outcome.ok]
      | error written err =>
        simp +contextual [downloadFile, httpsGet, createWriteStream, requests, opened,
          FileSystem.write, FileSystem.remove, pipe, unlink]
      | requestError written err =>
        simp +contextual [downloadFile, httpsGet, createWriteStream, requests, opened,
          FileSystem.write, pipe]
      | cutShort written =>
        simp +contextual [downloadFile, httpsGet, createWriteStream, requests, opened,
          FileSystem.write, pipe]
    · simp +contextual [downloadFile, hs, httpsGet, createWriteStream, requests, opened,
        FileSystem.write]

theorem downloadAll_eq_of_loop (env : Nat → Outcome) (tasks tasks' : List DownloadTask)
    (w : World)
    (h : downloadLoop env 0 tasks (consoleLog headerLine w)
      = downloadLoop env 0 tasks' (consoleLog headerLine w)) :
    downloadAll env tasks w = downloadAll env tasks' w := by
  have h' : downloadLoop env 0 tasks
        (consoleLog ("Downloading PDF.js v" ++ PDFJS_VERSION ++ "...") w)
      = downloadLoop env 0 tasks'
        (consoleLog ("Downloading PDF.js v" ++ PDFJS_VERSION ++ "...") w) := h
  simp only [downloadAll, h']

theorem downloadLoop_take (env : Nat → Outcome) (tasks : List DownloadTask) (k : Nat)
    (w : World) (i : Nat) (hi : i < tasks.length)
    (hpre : ∀ j, j < i → ∃ body, env (k + j) = .ok body)
    (hfail : ∀ body, env (k + i) ≠ .ok body) :
    downloadLoop env k tasks w = downloadLoop env k (tasks.take (i + 1)) w := by
  have hi' : i < (tasks.take (i + 1)).length := by
    simp [List.length_take]; omega
  rw [downloadLoop_first_failure env tasks k w i hi hpre hfail,
    downloadLoop_first_failure env (tasks.take (i + 1)) k w i hi' hpre hfail]
  have h1 : (tasks.take (i + 1)).take i = tasks.take i := by
    rw [List.take_take]; congr 1; omega
  have h2 : (tasks.take (i + 1)).get ⟨i, hi'⟩ = tasks.get ⟨i, hi⟩ := by
    simp [List.getElem_take]
  rw [h1, h2]

/-- The world in which the call for task `i` is made when the calls before it
succeed. -/
theorem world_before (env : Nat → Outcome) (tasks : List DownloadTask) (fs : FileSystem)
    (i : Nat) (hi : i ≤ tasks.length) (hpre : ∀ j, j < i → ∃ body, env j = .ok body) :
    (downloadLoop env 0 (tasks.take i) (consoleLog headerLine (World.init fs))).1 = .resolved
      ∧ (downloadLoop env 0 (tasks.take i) (consoleLog headerLine (World.init fs))).2.stdout
          = headerLine :: (tasks.take i).map progressLine
      ∧ (downloadLoop env 0 (tasks.take i) (consoleLog headerLine (World.init fs))).2.stderr = []
      ∧ (downloadLoop env 0 (tasks.take i) (consoleLog headerLine (World.init fs))).2.exitCode
          = none
      ∧ (downloadLoop env 0 (tasks.take i) (consoleLog headerLine (World.init fs))).2.uncaught
          = none
      ∧ requests (downloadLoop env 0 (tasks.take i) (consoleLog headerLine (World.init fs))).2
          = (tasks.take i).map DownloadTask.url
      ∧ opened (downloadLoop env 0 (tasks.take i) (consoleLog headerLine (World.init fs))).2
          = (tasks.take i).map DownloadTask.path
      ∧ (downloadLoop env 0 (tasks.take i) (consoleLog headerLine (World.init fs))).2.fs.dirs
          = fs.dirs
      ∧ (∀ q, q ∉ (tasks.take i).map DownloadTask.path →
          (downloadLoop env 0 (tasks.take i) (consoleLog headerLine (World.init fs))).2.fs.files q
            = fs.files q)
      ∧ ((tasks.map DownloadTask.path).Nodup → ∀ j (hj : j < tasks.length), j < i →
          (downloadLoop env 0 (tasks.take i) (consoleLog headerLine (World.init fs))).2.fs.files
            (tasks.get ⟨j, hj⟩).path = some (env j).body) := by
  have hlen : (tasks.take i).length = i := by simp [List.length_take]; omega
  have hpre' : ∀ j, j < (tasks.take i).length → ∃ body, env (0 + j) = .ok body := by
    intro j hj
    rw [Nat.zero_add]
    exact hpre j (by omega)
  obtain ⟨h1, h2, h3, h4, h5, h6, h7, h8, h9⟩ :=
    downloadLoop_all_ok env (tasks.take i) 0 (consoleLog headerLine (World.init fs)) hpre'
  refine ⟨h1, ?_, ?_, ?_, ?_, ?_, ?_, ?_, ?_, ?_⟩
  · rw [h2]; simp [consoleLog, World.init]
  · rw [h3]; simp [consoleLog, World.init]
  · rw [h4]; simp [consoleLog, World.init]
  · rw [h5]; simp [consoleLog, World.init]
  · rw [requests, h6]
    simp only [consoleLog, World.init, List.nil_append]
    exact requests_okCalls _
  · rw [opened, h6]
    simp only [consoleLog, World.init, List.nil_append]
    exact opened_okCalls _
  · rw [h7]; simp [consoleLog, World.init]
  · intro q hq
    rw [h8 q hq]; simp [consoleLog, World.init]
  · intro hnd j hj hji
    have hnd' : ((tasks.take i).map DownloadTask.path).Nodup := by
      rw [List.map_take]
      exact hnd.sublist (List.take_sublist _ _)
    have hj' : j < (tasks.take i).length := by omega
    have := h9 hnd' j hj'
    rw [Nat.zero_add] at this
    have hget : (tasks.take i).get ⟨j, hj'⟩ = tasks.get ⟨j, hj⟩ := by
      simp [List.getElem_take]
    rw [hget] at this
    exact this

/-- The run after the loop, when the call for task `i` is the first that does
not succeed. -/
theorem downloadAll_first_failure (env : Nat → Outcome) (tasks : List DownloadTask)
    (fs : FileSystem) (i : Nat) (hi : i < tasks.length)
    (hpre : ∀ j, j < i → ∃ body, env j = .ok body) (hfail : ∀ body, env i ≠ .ok body) :
    downloadLoop env 0 tasks (consoleLog headerLine (World.init fs))
      = downloadFile (env i) (tasks.get ⟨i, hi⟩).url (tasks.get ⟨i, hi⟩).path
          (downloadLoop env 0 (tasks.take i) (consoleLog headerLine (World.init fs))).2 := by
  have := downloadLoop_first_failure env tasks 0 (consoleLog headerLine (World.init fs)) i hi
    (by simpa using hpre) (by simpa using hfail)
  simpa using this

theorem downloadAll_unfold (env : Nat → Outcome) (tasks : List DownloadTask) (w : World) :
    downloadAll env tasks w =
      match downloadLoop env 0 tasks (consoleLog headerLine w) with
      | (.resolved, w1) => consoleLog successLine w1
      | (.rejected message, w1) =>
        processExit 1 (consoleError ("Error downloading PDF.js: " ++ message) w1)
      | (.unhandled err, w1) => uncaughtException err w1
      | (.pending, w1) => w1 := rfl

/-- C1, as the code has it.  With `i` counted from 0, when the calls for the
tasks before task `i` succeed and the call for task `i` does not, the run is
the run over the tasks up to `i` alone: the requests issued and the streams
opened are those of the tasks `0..i` and of no later task, no file outside
their destinations is touched, and the progress lines are those of the tasks
before `i`.  When the promise of the call for task `i` is rejected (status
other than 200, error of the request, error of the write stream while the body
is piped), the run ends with `process.exit(1)`, exit status 1, after one line
on the error stream. -/
theorem downloadAll_stops_at_first_failure (env : Nat → Outcome) (tasks : List DownloadTask)
    (fs : FileSystem) (i : Nat) (hi : i < tasks.length)
    (hpre : ∀ j, j < i → ∃ body, env j = .ok body) (hfail : ∀ body, env i ≠ .ok body) :
    downloadAll env tasks (World.init fs) = downloadAll env (tasks.take (i + 1)) (World.init fs)
      ∧ requests (downloadAll env tasks (World.init fs))
          = (tasks.take (i + 1)).map DownloadTask.url
      ∧ opened (downloadAll env tasks (World.init fs))
          = (tasks.take (i + 1)).map DownloadTask.path
      ∧ (∀ q, q ∉ (tasks.take (i + 1)).map DownloadTask.path →
          (downloadAll env tasks (World.init fs)).fs.files q = fs.files q)
      ∧ (downloadAll env tasks (World.init fs)).stdout
          = headerLine :: (tasks.take i).map progressLine
      ∧ ((env i).isRejected = true →
          (downloadAll env tasks (World.init fs)).exitCode = some 1
          ∧ (downloadAll env tasks (World.init fs)).exitStatus = 1
          ∧ (downloadAll env tasks (World.init fs)).stderr.length = 1) := by
  have hloop := downloadAll_first_failure env tasks fs i hi hpre hfail
  obtain ⟨-, b2, b3, b4, b5, b6, b7, -, b9, -⟩ := world_before env tasks fs i (le_of_lt hi) hpre
  generalize (downloadLoop env 0 (tasks.take i) (consoleLog headerLine (World.init fs))).2 = W
    at hloop b2 b3 b4 b5 b6 b7 b9
  obtain ⟨f1, f2, f3, -, f5, f6, f7, f8⟩ :=
    downloadFile_frame (env i) (tasks.get ⟨i, hi⟩).url (tasks.get ⟨i, hi⟩).path W
  have hne := downloadFile_not_ok (env i) (tasks.get ⟨i, hi⟩).url (tasks.get ⟨i, hi⟩).path W hfail
  have hrej := downloadFile_rejected_iff (env i) (tasks.get ⟨i, hi⟩).url
    (tasks.get ⟨i, hi⟩).path W
  have htake : tasks.take (i + 1) = tasks.take i ++ [tasks.get ⟨i, hi⟩] := by
    rw [List.take_succ]; simp [List.getElem?_eq_getElem hi]
  refine ⟨?_, ?_⟩
  · exact downloadAll_eq_of_loop env tasks _ _
      (downloadLoop_take env tasks 0 _ i hi (by simpa using hpre) (by simpa using hfail))
  rw [downloadAll_unfold, hloop]
  rcases hr : downloadFile (env i) (tasks.get ⟨i, hi⟩).url (tasks.get ⟨i, hi⟩).path W
    with ⟨r, w1⟩
  rw [hr] at f1 f2 f3 f5 f6 f7 f8 hne hrej
  simp only at f1 f2 f3 f5 f6 f7 f8 hne hrej
  have hfiles : ∀ q, q ∉ (tasks.take (i + 1)).map DownloadTask.path →
      w1.fs.files q = fs.files q := by
    intro q hq
    rw [htake] at hq
    simp only [List.map_append, List.mem_append, List.map_cons, List.map_nil,
      List.mem_singleton, not_or] at hq
    rw [f3 q hq.2]
    exact b9 q hq.1
  have hstd : w1.stdout = headerLine :: (tasks.take i).map progressLine := by
    rw [f8 hfail, b2]
  have hreq : requests w1 = (tasks.take (i + 1)).map DownloadTask.url := by
    rw [f1, b6, htake, List.map_append]; rfl
  have hopen : opened w1 = (tasks.take (i + 1)).map DownloadTask.path := by
    rw [f2, b7, htake, List.map_append]; rfl
  cases r with
  | resolved => exact absurd rfl hne
  | rejected message =>
    refine ⟨hreq, hopen, hfiles, hstd, ?_⟩
    intro _
    refine ⟨rfl, rfl, ?_⟩
    show (w1.stderr ++ [_]).length = 1
    rw [f5, b3]; rfl
  | unhandled err =>
    refine ⟨hreq, hopen, hfiles, hstd, ?_⟩
    intro h
    obtain ⟨message, hm⟩ := hrej.mpr h
    cases hm
  | pending =>
    refine ⟨hreq, hopen, hfiles, hstd, ?_⟩
    intro h
    obtain ⟨message, hm⟩ := hrej.mpr h
    cases hm

theorem downloadAll_stops_at_first_failure_witness :
    requests (downloadAll envSecond404 [taskA, taskB, taskA] (World.init FileSystem.empty))
        = ["https://example.com/a.js", "https://example.com/b.js"]
      ∧ (downloadAll envSecond404 [taskA, taskB, taskA]
          (World.init FileSystem.empty)).exitStatus = 1 :=
  ⟨(downloadAll_stops_at_first_failure envSecond404 [taskA, taskB, taskA] FileSystem.empty 1
      (by decide)
      (fun j hj => ⟨"AAA", by
        have : j = 0 := by omega
        subst this; rfl⟩)
      (by intro body; simp [envSecond404, Outcome.ok])).2.1,
   ((downloadAll_stops_at_first_failure envSecond404 [taskA, taskB, taskA] FileSystem.empty 1
      (by decide)
      (fun j hj => ⟨"AAA", by
        have : j = 0 := by omega
        subst this; rfl⟩)
      (by intro body; simp [envSecond404, Outcome.ok])).2.2.2.2.2 rfl).2.1⟩

/-- C1, as the claim has it, fails: in the two-task run whose first response
(status 200) is cut short without any error, the first task does not succeed
and the second is never attempted, but the promise stays pending, the `catch`
block does not run, and the process ends with exit status 0, not 1. -/
theorem cut_short_exit_status_not_one :
    (∀ body, envCutShort 0 ≠ .ok body)
      ∧ requests (downloadAll envCutShort [taskA, taskB] (World.init FileSystem.empty))
        = ["https://example.com/a.js"]
      ∧ (downloadAll envCutShort [taskA, taskB] (World.init FileSystem.empty)).stderr = []
      ∧ ¬ ((downloadAll envCutShort [taskA, taskB] (World.init FileSystem.empty)).exitStatus
        = 1) := by
  refine ⟨?_, by decide, by decide, by decide⟩
  intro body
  simp [envCutShort, Outcome.ok]

/-- C2: when the destination paths are distinct and every call succeeds
(status 200, no error of the request or of the write stream), then after the
run every destination file holds the body its own endpoint returned, the
streams opened are exactly those of the destinations, every other file and the
directories are as before, the last line printed is the success line, nothing
is written to the error stream, `process.exit` is not called and the exit
status is 0. -/
theorem downloadAll_all_ok (env : Nat → Outcome) (tasks : List DownloadTask) (fs : FileSystem)
    (hnd : (tasks.map DownloadTask.path).Nodup)
    (hok : ∀ j, j < tasks.length → ∃ body, env j = .ok body) :
    (∀ j (hj : j < tasks.length),
        (downloadAll env tasks (World.init fs)).fs.files (tasks.get ⟨j, hj⟩).path
          = some (env j).body)
      ∧ opened (downloadAll env tasks (World.init fs)) = tasks.map DownloadTask.path
      ∧ requests (downloadAll env tasks (World.init fs)) = tasks.map DownloadTask.url
      ∧ (∀ q, q ∉ tasks.map DownloadTask.path →
          (downloadAll env tasks (World.init fs)).fs.files q = fs.files q)
      ∧ (downloadAll env tasks (World.init fs)).fs.dirs = fs.dirs
      ∧ (downloadAll env tasks (World.init fs)).stdout.getLast? = some successLine
      ∧ (downloadAll env tasks (World.init fs)).stderr = []
      ∧ (downloadAll env tasks (World.init fs)).exitCode = none
      ∧ (downloadAll env tasks (World.init fs)).exitStatus = 0 := by
  obtain ⟨b1, b2, b3, b4, b5, b6, b7, b8, b9, b10⟩ :=
    world_before env tasks fs tasks.length (le_refl _) hok
  rw [List.take_length] at b1 b2 b3 b4 b5 b6 b7 b8 b9 b10
  rw [downloadAll_unfold]
  rcases hr : downloadLoop env 0 tasks (consoleLog headerLine (World.init fs)) with ⟨r, w1⟩
  rw [hr] at b1 b2 b3 b4 b5 b6 b7 b8 b9 b10
  simp only at b1 b2 b3 b4 b5 b6 b7 b8 b9 b10
  subst b1
  refine ⟨fun j hj => b10 hnd j hj hj, b7, b6, b9, b8, ?_, b3, b4, ?_⟩
  · simp [consoleLog]
  · simp [World.exitStatus, consoleLog, b4, b5]

theorem downloadAll_all_ok_witness :
    (downloadAll envBothOk [taskA, taskB] (World.init FileSystem.empty)).fs.files ["out", "a.js"]
        = some "AAA"
      ∧ (downloadAll envBothOk [taskA, taskB] (World.init FileSystem.empty)).fs.files
          ["out", "b.js"] = some "BBB" :=
  ⟨(downloadAll_all_ok envBothOk [taskA, taskB] FileSystem.empty (by decide)
      (fun j _ => match j with
        | 0 => ⟨"AAA", rfl⟩
        | _ + 1 => ⟨"BBB", rfl⟩)).1 0 (by decide),
   (downloadAll_all_ok envBothOk [taskA, taskB] FileSystem.empty (by decide)
      (fun j _ => match j with
        | 0 => ⟨"AAA", rfl⟩
        | _ + 1 => ⟨"BBB", rfl⟩)).1 1 (by decide)⟩

/-- C4, as the code has it: in the two-task scenario whose second endpoint
answers 404, after the run `out/a.js` holds `AAA`, `out/b.js` exists and is
empty (it was created by `createWriteStream` and is not removed), no `unlink`
is called, `process.exit(1)` is called, and the one line on the error stream
names the URL `https://example.com/b.js` and the status 404. -/
theorem second_404_leaves_empty_file (fs : FileSystem) :
    (downloadAll envSecond404 [taskA, taskB] (World.init fs)).fs.files ["out", "a.js"]
        = some "AAA"
      ∧ (downloadAll envSecond404 [taskA, taskB] (World.init fs)).fs.files ["out", "b.js"]
        = some ""
      ∧ (downloadAll envSecond404 [taskA, taskB] (World.init fs)).calls
        = [Call.createWriteStream ["out", "a.js"], Call.httpsGet "https://example.com/a.js",
           Call.pipe ["out", "a.js"], Call.close ["out", "a.js"],
           Call.createWriteStream ["out", "b.js"], Call.httpsGet "https://example.com/b.js"]
      ∧ (downloadAll envSecond404 [taskA, taskB] (World.init fs)).exitCode = some 1
      ∧ (downloadAll envSecond404 [taskA, taskB] (World.init fs)).exitStatus = 1
      ∧ (downloadAll envSecond404 [taskA, taskB] (World.init fs)).stderr
        = ["Error downloading PDF.js: Failed to download https://example.com/b.js: 404"] := by
  refine ⟨?_, ?_, rfl, rfl, rfl, rfl⟩
  · show (if ["out", "a.js"] = ["out", "b.js"] then some "" else _) = _
    rw [if_neg (by decide)]
    rfl
  · rfl

/-- C4, as the claim has it, fails: after the run of the scenario on an empty
filesystem it is not the case that `out/a.js` holds `AAA`, `out/b.js` does not
exist and the exit status is 1, because `out/b.js` exists. -/
theorem second_404_destination_not_absent :
    ¬ ((downloadAll envSecond404 [taskA, taskB] (World.init FileSystem.empty)).fs.files
          ["out", "a.js"] = some "AAA"
        ∧ (downloadAll envSecond404 [taskA, taskB] (World.init FileSystem.empty)).fs.files
          ["out", "b.js"] = none
        ∧ (downloadAll envSecond404 [taskA, taskB] (World.init FileSystem.empty)).exitStatus
          = 1) := by
  decide

/-- C7, as the code has it.  When the calls before call `i` succeed:
if those are all the calls, standard output holds the header line, one
progress line per task in task order and the success line, `N + 2` lines in
all, and the error stream is empty; if call `i` is rejected (error of the
request, status other than 200, or error of the write stream while the body is
piped, error of the request while the body is piped), the error stream holds
exactly one line, `Error downloading PDF.js: `
followed by the message of the rejection, and standard output holds the header
line and the progress lines of the tasks before `i`. -/
theorem downloadAll_output (env : Nat → Outcome) (tasks : List DownloadTask) (fs : FileSystem)
    (i : Nat) (hi : i ≤ tasks.length) (hpre : ∀ j, j < i → ∃ body, env j = .ok body) :
    (i = tasks.length →
        (downloadAll env tasks (World.init fs)).stdout
            = headerLine :: (tasks.map progressLine ++ [successLine])
          ∧ (downloadAll env tasks (World.init fs)).stdout.length = tasks.length + 2
          ∧ (downloadAll env tasks (World.init fs)).stderr = [])
      ∧ (∀ (hlt : i < tasks.length),
          (∀ err, env i = .requestError err →
            (downloadAll env tasks (World.init fs)).stderr
              = ["Error downloading PDF.js: " ++ err])
          ∧ (∀ s body wo, s ≠ 200 → env i = .response s body wo →
            (downloadAll env tasks (World.init fs)).stderr
              = ["Error downloading PDF.js: " ++
                  ("Failed to download " ++ (tasks.get ⟨i, hlt⟩).url ++ ": " ++ toString s)])
          ∧ (∀ body written err, env i = .response 200 body (.error written err) →
            (downloadAll env tasks (World.init fs)).stderr
              = ["Error downloading PDF.js: " ++ err])
          ∧ (∀ body written err, env i = .response 200 body (.requestError written err) →
            (downloadAll env tasks (World.init fs)).stderr
              = ["Error downloading PDF.js: " ++ err])
          ∧ ((∀ body, env i ≠ .ok body) →
            (downloadAll env tasks (World.init fs)).stdout
              = headerLine :: (tasks.take i).map progressLine)) := by
  obtain ⟨b1, b2, b3, -, -, -, -, -, -, -⟩ := world_before env tasks fs i hi hpre
  constructor
  · intro hN
    subst hN
    rw [List.take_length] at b1 b2 b3
    rw [downloadAll_unfold]
    rcases hr : downloadLoop env 0 tasks (consoleLog headerLine (World.init fs)) with ⟨r, w1⟩
    rw [hr] at b1 b2 b3
    simp only at b1 b2 b3
    subst b1
    refine ⟨?_, ?_, ?_⟩
    · simp [consoleLog, b2]
    · simp [consoleLog, b2]
    · simp [consoleLog, b3]
  · intro hlt
    have key : ∀ message, (∀ body, env i ≠ .ok body) →
        (∀ w, (downloadFile (env i) (tasks.get ⟨i, hlt⟩).url (tasks.get ⟨i, hlt⟩).path w).1
          = .rejected message) →
        (downloadAll env tasks (World.init fs)).stderr
          = ["Error downloading PDF.js: " ++ message] := by
      intro message hfail hrej
      have hloop := downloadAll_first_failure env tasks fs i hlt hpre hfail
      generalize (downloadLoop env 0 (tasks.take i) (consoleLog headerLine (World.init fs))).2
        = W at hloop b2 b3
      obtain ⟨-, -, -, -, f5, -, -, -⟩ :=
        downloadFile_frame (env i) (tasks.get ⟨i, hlt⟩).url (tasks.get ⟨i, hlt⟩).path W
      have hrej' := hrej W
      rw [downloadAll_unfold, hloop]
      rcases hr : downloadFile (env i) (tasks.get ⟨i, hlt⟩).url (tasks.get ⟨i, hlt⟩).path W
        with ⟨r, w1⟩
      rw [hr] at f5 hrej'
      simp only at f5 hrej'
      subst hrej'
      simp [processExit, consoleError, f5, b3]
    refine ⟨?_, ?_, ?_, ?_, ?_⟩
    · intro err he
      apply key err
      · intro body; rw [he]; simp [Outcome.ok]
      · intro w; rw [he]; rfl
    · intro s body wo hs he
      apply key
      · intro body'; rw [he]; simp [Outcome.ok, hs]
      · intro w; rw [he]; simp [downloadFile, hs]
    · intro body written err he
      apply key err
      · intro body'; rw [he]; simp [Outcome.ok]
      · intro w; rw [he]; simp [downloadFile]
    · intro body written err he
      apply key err
      · intro body'; rw [he]; simp [Outcome.ok]
      · intro w; rw [he]; simp [downloadFile]
    · intro hfail
      have hloop := downloadAll_first_failure env tasks fs i hlt hpre hfail
      generalize (downloadLoop env 0 (tasks.take i) (consoleLog headerLine (World.init fs))).2
        = W at hloop b2
      obtain ⟨-, -, -, -, -, -, -, f8⟩ :=
        downloadFile_frame (env i) (tasks.get ⟨i, hlt⟩).url (tasks.get ⟨i, hlt⟩).path W
      have hne :=
        downloadFile_not_ok (env i) (tasks.get ⟨i, hlt⟩).url (tasks.get ⟨i, hlt⟩).path W hfail
      rw [downloadAll_unfold, hloop]
      rcases hr : downloadFile (env i) (tasks.get ⟨i, hlt⟩).url (tasks.get ⟨i, hlt⟩).path W
        with ⟨r, w1⟩
      rw [hr] at f8 hne
      simp only at f8 hne
      cases r with
      | resolved => exact absurd rfl hne
      | rejected message =>
        show w1.stdout = _
        rw [f8 hfail, b2]
      | unhandled err =>
        show w1.stdout = _
        rw [f8 hfail, b2]
      | pending =>
        show w1.stdout = _
        rw [f8 hfail, b2]

theorem downloadAll_output_witness :
    (downloadAll envBothOk [taskA, taskB] (World.init FileSystem.empty)).stdout
        = ["Downloading PDF.js v3.11.174...", "Downloaded: a.js", "Downloaded: b.js",
           "PDF.js files downloaded successfully!"]
      ∧ (downloadAll envSecond404 [taskA, taskB] (World.init FileSystem.empty)).stderr
        = ["Error downloading PDF.js: Failed to download https://example.com/b.js: 404"] :=
  ⟨((downloadAll_output envBothOk [taskA, taskB] FileSystem.empty 2 (by decide)
      (fun j _ => match j with
        | 0 => ⟨"AAA", rfl⟩
        | _ + 1 => ⟨"BBB", rfl⟩)).1 rfl).1,
   ((downloadAll_output envSecond404 [taskA, taskB] FileSystem.empty 1 (by decide)
      (fun j hj => ⟨"AAA", by
        have : j = 0 := by omega
        subst this; rfl⟩)).2 (by decide)).2.1 404 "Not Found" .finish (by decide) rfl⟩

/-- C7, as the claim has it, fails: the fully successful run of the two-task
scenario does not write `N + 1 = 3` lines to standard output, and its lines
are not the two progress lines followed by the success line: the header line
of line 54 comes first. -/
theorem both_ok_stdout_not_three_lines :
    ¬ ((downloadAll envBothOk [taskA, taskB] (World.init FileSystem.empty)).stdout.length
          = 2 + 1)
      ∧ ¬ ((downloadAll envBothOk [taskA, taskB] (World.init FileSystem.empty)).stdout
          = [progressLine taskA, progressLine taskB, successLine]) := by
  constructor <;> decide

/-- C5, at an error of the write stream that comes before the response (the
open of the destination fails, the destination being an existing file the
process may not write): the promise is not rejected and the `catch` block does
not run (nothing on the error stream, `process.exit` not called), the error is
an uncaught exception, `unlink` is not called, and the destination file is
still there with its content after the run. -/
theorem open_error_not_handled :
    (downloadAll envOpenError [taskA]
        (World.init (FileSystem.empty.write ["out", "a.js"] "old"))).uncaught
        = some "EACCES: permission denied, open out/a.js"
      ∧ (downloadAll envOpenError [taskA]
        (World.init (FileSystem.empty.write ["out", "a.js"] "old"))).stderr = []
      ∧ (downloadAll envOpenError [taskA]
        (World.init (FileSystem.empty.write ["out", "a.js"] "old"))).exitCode = none
      ∧ (downloadAll envOpenError [taskA]
        (World.init (FileSystem.empty.write ["out", "a.js"] "old"))).calls
        = [Call.createWriteStream ["out", "a.js"], Call.httpsGet "https://example.com/a.js"]
      ∧ (downloadAll envOpenError [taskA]
        (World.init (FileSystem.empty.write ["out", "a.js"] "old"))).fs.files ["out", "a.js"]
        = some "old" := by
  decide

/-- The path the `error` listener of the write stream covers: the status is
200 and the stream fails while the body is piped.  The promise is rejected
with the error of the stream and the destination file is removed. -/
theorem downloadFile_write_error (body written err url : String) (p : Path) (w : World) :
    (downloadFile (.response 200 body (.error written err)) url p w).1 = .rejected err
      ∧ (downloadFile (.response 200 body (.error written err)) url p w).2.fs.files p = none
      ∧ (downloadFile (.response 200 body (.error written err)) url p w).2.calls
        = w.calls ++ [Call.createWriteStream p, Call.httpsGet url, Call.pipe p, Call.unlink p]
      ∧ (∀ q, q ≠ p →
          (downloadFile (.response 200 body (.error written err)) url p w).2.fs.files q
            = w.fs.files q) := by
  simp +contextual [downloadFile, httpsGet, createWriteStream, pipe, unlink, FileSystem.write,
    FileSystem.remove]

/-- C8: when something exists at the directory path, the step calls nothing
and leaves the world as it is (the filesystem with every file in it, and the
log of calls, in which no `mkdirSync` is added); when nothing exists there,
`mkdirSync` is called once, after which the directory and all its ancestors
are directories, while every file and every other directory is as before. -/
theorem ensureOutputDirectory_spec (dir : Path) (w : World) :
    (existsSync w.fs dir = true →
        ensureOutputDirectory dir w = w
          ∧ (ensureOutputDirectory dir w).calls = w.calls
          ∧ (ensureOutputDirectory dir w).fs.files = w.fs.files
          ∧ (ensureOutputDirectory dir w).fs.dirs = w.fs.dirs)
      ∧ (existsSync w.fs dir = false →
        (ensureOutputDirectory dir w).calls = w.calls ++ [Call.mkdirSync dir]
          ∧ existsSync (ensureOutputDirectory dir w).fs dir = true
          ∧ (∀ q, q <+: dir → (ensureOutputDirectory dir w).fs.dirs q = true)
          ∧ (∀ q, ¬ q <+: dir → (ensureOutputDirectory dir w).fs.dirs q = w.fs.dirs q)
          ∧ (∀ q, w.fs.dirs q = true → (ensureOutputDirectory dir w).fs.dirs q = true)
          ∧ (ensureOutputDirectory dir w).fs.files = w.fs.files) := by
  constructor
  · intro h
    simp [ensureOutputDirectory, h]
  · intro h
    have hstep : ensureOutputDirectory dir w = mkdirSync dir w := by
      simp [ensureOutputDirectory, h]
    rw [hstep]
    refine ⟨rfl, ?_, ?_, ?_, ?_, rfl⟩
    · simp [existsSync, mkdirSync]
    · intro q hq
      simp [mkdirSync, List.isPrefixOf_iff_prefix, hq]
    · intro q hq
      simp [mkdirSync, List.isPrefixOf_iff_prefix, hq]
    · intro q hq
      simp [mkdirSync, hq]

theorem ensureOutputDirectory_spec_witness :
    ensureOutputDirectory ["srv", "public", "libs"]
        (World.init (FileSystem.empty.write ["srv", "public", "libs"] "x"))
        = World.init (FileSystem.empty.write ["srv", "public", "libs"] "x")
      ∧ (ensureOutputDirectory ["srv", "public", "libs"] (World.init FileSystem.empty)).fs.dirs
          ["srv", "public"] = true :=
  ⟨((ensureOutputDirectory_spec ["srv", "public", "libs"]
      (World.init (FileSystem.empty.write ["srv", "public", "libs"] "x"))).1 (by decide)).1,
   ((ensureOutputDirectory_spec ["srv", "public", "libs"] (World.init FileSystem.empty)).2
      (by decide)).2.2.1 ["srv", "public"] (by decide)⟩

/-- C9: the task list has exactly two tasks, in this order, for the filenames
`pdf.min.js` and `pdf.worker.min.js`: the URL of each is
`BASE_URL + "/" + PDFJS_VERSION + "/" + f`, that is
`https://cdnjs.cloudflare.com/ajax/libs/pdf.js/3.11.174/<f>`, its destination
is `f` directly under `OUTPUT_DIR`, and the basename of the destination is the
last segment of the URL. -/
theorem files_spec (dirname : Path) :
    (files dirname).length = 2
      ∧ (files dirname).map DownloadTask.url
        = ["pdf.min.js", "pdf.worker.min.js"].map
            (fun f => BASE_URL ++ "/" ++ PDFJS_VERSION ++ "/" ++ f)
      ∧ (files dirname).map DownloadTask.url
        = ["https://cdnjs.cloudflare.com/ajax/libs/pdf.js/3.11.174/pdf.min.js",
           "https://cdnjs.cloudflare.com/ajax/libs/pdf.js/3.11.174/pdf.worker.min.js"]
      ∧ (files dirname).map DownloadTask.path
        = ["pdf.min.js", "pdf.worker.min.js"].map (fun f => OUTPUT_DIR dirname ++ [f])
      ∧ OUTPUT_DIR dirname = dirname.dropLast ++ ["public", "libs"]
      ∧ (files dirname).map (fun t => basename t.path) = ["pdf.min.js", "pdf.worker.min.js"]
      ∧ ∀ t, t ∈ files dirname → basename t.path = urlLastSegment t.url := by
  have hA : pathJoin (OUTPUT_DIR dirname) ["pdf.min.js"] = OUTPUT_DIR dirname ++ ["pdf.min.js"] := by
    simp [pathJoin, joinStep]
  have hB : pathJoin (OUTPUT_DIR dirname) ["pdf.worker.min.js"]
      = OUTPUT_DIR dirname ++ ["pdf.worker.min.js"] := by
    simp [pathJoin, joinStep]
  have hu1 : BASE_URL ++ "/" ++ PDFJS_VERSION ++ "/pdf.min.js"
      = "https://cdnjs.cloudflare.com/ajax/libs/pdf.js/3.11.174/pdf.min.js" := by decide
  have hu2 : BASE_URL ++ "/" ++ PDFJS_VERSION ++ "/pdf.worker.min.js"
      = "https://cdnjs.cloudflare.com/ajax/libs/pdf.js/3.11.174/pdf.worker.min.js" := by decide
  have hv1 : BASE_URL ++ "/" ++ PDFJS_VERSION ++ "/" ++ "pdf.min.js"
      = "https://cdnjs.cloudflare.com/ajax/libs/pdf.js/3.11.174/pdf.min.js" := by decide
  have hv2 : BASE_URL ++ "/" ++ PDFJS_VERSION ++ "/" ++ "pdf.worker.min.js"
      = "https://cdnjs.cloudflare.com/ajax/libs/pdf.js/3.11.174/pdf.worker.min.js" := by decide
  have hs1 : urlLastSegment "https://cdnjs.cloudflare.com/ajax/libs/pdf.js/3.11.174/pdf.min.js"
      = "pdf.min.js" := by decide
  have hs2 :
      urlLastSegment "https://cdnjs.cloudflare.com/ajax/libs/pdf.js/3.11.174/pdf.worker.min.js"
        = "pdf.worker.min.js" := by decide
  refine ⟨rfl, ?_, ?_, ?_, ?_, ?_, ?_⟩
  · simp only [files, List.map, hu1, hu2, hv1, hv2]
  · simp only [files, List.map, hu1, hu2]
  · simp only [files, List.map, hA, hB]
  · simp [OUTPUT_DIR, pathJoin, joinStep]
  · simp only [files, List.map, hA, hB, basename]
    simp
  · intro t ht
    simp only [files, hA, hB, hu1, hu2, List.mem_cons, List.mem_singleton, List.not_mem_nil,
      or_false] at ht
    rcases ht with rfl | rfl
    · simp only [hs1, basename]; simp
    · simp only [hs2, basename]; simp

end DownloadPdfjs
